import Mathlib

/-!
Shallow embedding of the real-time dashboard synchronization layer of
`src/static/agent_dashboard.js` (meeting-copilot).

The JavaScript keeps a module-level `activeMeetings` JS `Map` (the Local
Meeting Registry), a `websocketConnection` handle, a live-updates DOM feed,
and a meeting-history table.  The WebSocket callbacks (`onmessage`,
`onclose`) and `handleWebSocketMessage` mutate that state.  Here the
mutable globals become an explicit `DashboardState`, the JS `Map` becomes an
insertion-ordered association list with unique keys (`mapSet` / `mapDelete`
mirror `Map.prototype.set` / `Map.prototype.delete`), and a JS runtime
exception (TypeError / SyntaxError) becomes the `HandlerResult.thrown`
constructor carrying the global state as it was at the moment of the throw
(JS mutations performed before the throw persist).
-/

/-- A meeting record as carried in WebSocket pushes (spec section 3; the
dashboard code reads `meeting_id` and `title`, and renders `platform` and
`start_time`). -/
structure Meeting where
  meeting_id : String
  title : String
  platform : String
  start_time : String
deriving Repr, DecidableEq

/-- One entry of the live-updates feed created by `addLiveUpdate`
(message text plus the alert style tag). -/
structure LiveUpdate where
  message : String
  style : String
deriving Repr, DecidableEq

/-- Model of `Map.prototype.set` on an insertion-ordered association list: if the key
is already present its value is replaced in place, otherwise the pair is
appended at the end, exactly as a JS `Map` behaves. -/
def mapSet (k : String) (v : Meeting) : List (String × Meeting) → List (String × Meeting)
  | [] => [(k, v)]
  | (k₁, v₁) :: rest => if k₁ = k then (k, v) :: rest else (k₁, v₁) :: mapSet k v rest

/-- Model of `Map.prototype.delete`: removes the entry for the key if present,
otherwise leaves the map unchanged. -/
def mapDelete (k : String) : List (String × Meeting) → List (String × Meeting)
  | [] => []
  | (k₁, v₁) :: rest => if k₁ = k then rest else (k₁, v₁) :: mapDelete k rest

/-- The mutable dashboard state: the `activeMeetings` registry, the
live-updates feed (newest first, as the DOM container is prepended to), the
rows currently rendered in the meeting-history table, the number of
`loadMeetingHistory()` refresh requests fired, and the console log. -/
structure DashboardState where
  activeMeetings : List (String × Meeting)
  liveUpdates : List LiveUpdate
  meetingHistoryRows : List Meeting
  historyReloads : Nat
  consoleLogs : List String
deriving Repr, DecidableEq

/-- State at page load: empty registry, empty feed, empty history. -/
def initState : DashboardState :=
  { activeMeetings := [], liveUpdates := [], meetingHistoryRows := [],
    historyReloads := 0, consoleLogs := [] }

/-- Source function `addLiveUpdate(message, type)` (lines 100-121): prepends a new alert to
the feed, then removes the oldest entry when the count exceeds 10. -/
def addLiveUpdate (message : String) (style : String) (feed : List LiveUpdate) :
    List LiveUpdate :=
  let feed₁ := { message := message, style := style } :: feed
  if feed₁.length > 10 then feed₁.dropLast else feed₁

/-- Source function `addActiveMeeting(meeting)` (lines 135-138):
`activeMeetings.set(meeting.meeting_id, meeting)`.  The DOM re-render
`updateActiveMeetingsDisplay()` is a pure function of the registry and is
not modelled. -/
def addActiveMeeting (meeting : Meeting) (st : DashboardState) : DashboardState :=
  { st with activeMeetings := mapSet meeting.meeting_id meeting st.activeMeetings }

/-- Source function `removeActiveMeeting(meetingId)` (lines 141-144):
`activeMeetings.delete(meetingId)`. -/
def removeActiveMeeting (meetingId : String) (st : DashboardState) : DashboardState :=
  { st with activeMeetings := mapDelete meetingId st.activeMeetings }

/-- The function `removeActiveMeeting` as invoked with a possibly-absent `data.meeting_id`:
`Map.prototype.delete` called with `undefined` on a string-keyed map finds no
entry and is a no-op, so an absent id leaves the registry unchanged. -/
def removeActiveMeetingOpt (meetingId : Option String) (st : DashboardState) :
    DashboardState :=
  match meetingId with
  | none => st
  | some id => removeActiveMeeting id st

/-- The nested `data` field of a `meetings_update` message; the handler reads
`data.data.meetings`. -/
structure WsPayload where
  meetings : Option (List Meeting) := none
deriving Repr, DecidableEq

/-- A decoded WebSocket message object.  `type` is the dispatch tag the
`switch` in `handleWebSocketMessage` matches on; every other field is
optional because JS object fields can be absent (reading an absent field
yields `undefined`; reading a property OF `undefined` throws). -/
structure WsData where
  type : String
  meeting : Option Meeting := none
  meeting_id : Option String := none
  text : Option String := none
  data : Option WsPayload := none
deriving Repr, DecidableEq

/-- A JS TypeError raised when a property of `undefined` is read. -/
def tyErr (field : String) : String :=
  "TypeError: Cannot read properties of undefined reading " ++ field

/-- Result of running a handler: normal return, or a thrown uncaught JS
exception together with the global state as of the moment of the throw. -/
inductive HandlerResult where
  | ok (st : DashboardState)
  | thrown (err : String) (st : DashboardState)
deriving Repr, DecidableEq

/-- The global state after the handler ran, whether it returned or threw
(mutations made before a throw persist in JS). -/
def HandlerResult.state : HandlerResult → DashboardState
  | .ok st => st
  | .thrown _ st => st

/-- Whether the handler threw. -/
def HandlerResult.throws : HandlerResult → Bool
  | .ok _ => false
  | .thrown _ _ => true

/-- Source function `updateMeetingHistory(meetings)` (lines 301-342): with a missing or empty
list it renders the placeholder row (modelled as no data rows), otherwise it
replaces the table body with one row per meeting, in order. -/
def updateMeetingHistory (meetings : Option (List Meeting)) : List Meeting :=
  match meetings with
  | none => []
  | some ms => ms

/-- Source function `handleWebSocketMessage(data)` (lines 69-97), the `switch (data.type)`:

* `meeting_started`: `addActiveMeeting(data.meeting)` reads
  `meeting.meeting_id` (throws if `data.meeting` is absent), then
  `addLiveUpdate` with the meeting title.
* `meeting_ended`: `removeActiveMeeting(data.meeting_id)` runs first, then
  the template string reads `data.meeting.title` (throws if `data.meeting`
  is absent, after the removal already happened), then
  `loadMeetingHistory()` fires a refresh.
* `transcript_update`: `data.text.substring(0, 50)` (throws if `data.text`
  is absent), prefixed into the feed.
* `meetings_update`: `updateMeetingHistory(data.data.meetings)` (throws if
  `data.data` is absent); the `activeMeetings` registry is not touched.
* `pong`: consumed silently.
* default: `console.log` the unknown tag; no other effect. -/
def handleWebSocketMessage (d : WsData) (st : DashboardState) : HandlerResult :=
  if d.type = "meeting_started" then
    match d.meeting with
    | none => .thrown (tyErr "meeting_id") st
    | some m =>
      let st₁ := addActiveMeeting m st
      .ok { st₁ with
              liveUpdates := addLiveUpdate ("Meeting started: " ++ m.title) "info"
                st₁.liveUpdates }
  else if d.type = "meeting_ended" then
    let st₁ := removeActiveMeetingOpt d.meeting_id st
    match d.meeting with
    | none => .thrown (tyErr "title") st₁
    | some m =>
      let st₂ := { st₁ with
                     liveUpdates := addLiveUpdate ("Meeting ended: " ++ m.title) "info"
                       st₁.liveUpdates }
      .ok { st₂ with historyReloads := st₂.historyReloads + 1 }
  else if d.type = "transcript_update" then
    match d.text with
    | none => .thrown (tyErr "substring") st
    | some t =>
      .ok { st with
              liveUpdates := addLiveUpdate ("Live transcript: " ++ t.take 50 ++ "...")
                "transcript" st.liveUpdates }
  else if d.type = "meetings_update" then
    match d.data with
    | none => .thrown (tyErr "meetings") st
    | some p =>
      .ok { st with meetingHistoryRows := updateMeetingHistory p.meetings }
  else if d.type = "pong" then
    .ok st
  else
    .ok { st with
            consoleLogs := st.consoleLogs ++
              ["Unknown WebSocket message type: " ++ d.type] }

/-- The `onmessage` callback (lines 49-52):
`handleWebSocketMessage(JSON.parse(event.data))` with no try/catch.  The
host `JSON.parse` is modelled by its outcome on the raw payload: a
SyntaxError (`Except.error`) on an unparsable payload, or the decoded
object.  Because the source wraps the call in no try/catch, a parse error
propagates uncaught out of the callback. -/
def onmessage (parsed : Except String WsData) (st : DashboardState) : HandlerResult :=
  match parsed with
  | .error e => .thrown e st
  | .ok d => handleWebSocketMessage d st

/-- Browser event-loop delivery of a sequence of WebSocket messages: each
message runs the `onmessage` callback as its own task; an uncaught exception
aborts only that task (the host reports it to the console) and the loop goes
on delivering the remaining messages against the state the aborted task left
behind. -/
def deliverAll (msgs : List (Except String WsData)) (st : DashboardState) :
    DashboardState :=
  match msgs with
  | [] => st
  | m :: rest => deliverAll rest (HandlerResult.state (onmessage m st))

/-- The WebSocket readyState constants of the host API. -/
def WebSocket.CONNECTING : Nat := 0

/-- The constant `WebSocket.OPEN`, the value `websocketConnection.readyState` is compared
against in the heartbeat guard. -/
def WebSocket.OPEN : Nat := 1

/-- The constant `WebSocket.CLOSING`. -/
def WebSocket.CLOSING : Nat := 2

/-- The constant `WebSocket.CLOSED`. -/
def WebSocket.CLOSED : Nat := 3

/-- One transport session: a fresh id distinguishing it from every earlier
session, and its current `readyState`. -/
structure WebSocketConn where
  id : Nat
  readyState : Nat
deriving Repr, DecidableEq

/-- The connection-manager state: the module-level `websocketConnection`
variable (absent before the first connect), plus the id the next
`new WebSocket(...)` will receive. -/
structure ConnectionState where
  websocketConnection : Option WebSocketConn
  nextSessionId : Nat
deriving Repr, DecidableEq

/-- Source function `connectWebSocket()` (lines 38-66): unconditionally evaluates
`new WebSocket(wsUrl)` and assigns it to `websocketConnection`.  The source
performs no check of the current handle or its readyState before doing so; a
newly constructed socket starts in the CONNECTING state.  The previous
socket object, if any, is merely no longer referenced by the variable. -/
def connectWebSocket (st : ConnectionState) : ConnectionState :=
  { websocketConnection :=
      some { id := st.nextSessionId, readyState := WebSocket.CONNECTING },
    nextSessionId := st.nextSessionId + 1 }

/-- The heartbeat message `{ type: "ping", timestamp: Date.now() }`. -/
structure PingMessage where
  type : String
  timestamp : Nat
deriving Repr, DecidableEq

/-- The period of the heartbeat `setInterval` (line 416). -/
def heartbeatIntervalMs : Nat := 30000

/-- One firing of the heartbeat timer (lines 409-416): sends the ping only
when `websocketConnection` exists and `websocketConnection.readyState ===
WebSocket.OPEN`; otherwise nothing is sent.  The tick reads nothing but the
connection handle and the clock, so its output is independent of any inbound
traffic or registry content. -/
def heartbeatTick (conn : Option WebSocketConn) (now : Nat) : Option PingMessage :=
  match conn with
  | some c =>
    if c.readyState = WebSocket.OPEN then some { type := "ping", timestamp := now }
    else none
  | none => none

/-- The kinds of timer task the dashboard schedules. -/
inductive TimerTask where
  | reconnect
deriving Repr, DecidableEq

/-- The delay of the `setTimeout(connectWebSocket, 3000)` in `onclose`. -/
def reconnectDelayMs : Nat := 3000

/-- The `onclose` callback (lines 54-60): logs, posts a warning to the
live-updates feed, and schedules exactly one `setTimeout(connectWebSocket,
3000)`.  The returned list holds the timer tasks this invocation scheduled.
The dashboard keeps no attempt counter, so the schedule cannot depend on how
many closures came before. -/
def onclose (st : DashboardState) : DashboardState × List (TimerTask × Nat) :=
  ({ st with
       consoleLogs := st.consoleLogs ++ ["Dashboard WebSocket closed"],
       liveUpdates := addLiveUpdate "Disconnected from real-time updates" "warning"
         st.liveUpdates },
   [(TimerTask.reconnect, reconnectDelayMs)])

/-- A registry operation: an insert as performed by a `meeting_started`
event, or a delete as performed by a `meeting_ended` event. -/
inductive RegOp where
  | upsert (m : Meeting)
  | remove (id : String)
deriving Repr, DecidableEq

/-- Apply one registry operation through the source mutators. -/
def applyOp (st : DashboardState) (op : RegOp) : DashboardState :=
  match op with
  | .upsert m => addActiveMeeting m st
  | .remove id => removeActiveMeeting id st

/-- Apply a sequence of registry operations in order. -/
def applyOps (ops : List RegOp) (st : DashboardState) : DashboardState :=
  ops.foldl applyOp st

/-- The keys of a registry, in insertion order. -/
def registryKeys (reg : List (String × Meeting)) : List String :=
  reg.map Prod.fst

/-! ### Lemmas about the JS `Map` embedding -/

theorem mapSet_keys (k : String) (v : Meeting) (l : List (String × Meeting)) :
    registryKeys (mapSet k v l) =
      if k ∈ registryKeys l then registryKeys l else registryKeys l ++ [k] := by
  induction l with
  | nil => simp [mapSet, registryKeys]
  | cons hd tl ih =>
    obtain ⟨k₁, v₁⟩ := hd
    by_cases h : k₁ = k
    · subst h
      simp [mapSet, registryKeys]
    · have h₂ : ¬(k = k₁) := fun hk => h hk.symm
      simp only [mapSet, if_neg h, registryKeys, List.map_cons, List.mem_cons, h₂,
        false_or] at ih ⊢
      rw [ih]
      split <;> simp

theorem mapSet_keys_nodup (k : String) (v : Meeting) (l : List (String × Meeting))
    (h : (registryKeys l).Nodup) : (registryKeys (mapSet k v l)).Nodup := by
  rw [mapSet_keys]
  split
  · exact h
  · next hk =>
    rw [List.nodup_append]
    exact ⟨h, List.nodup_singleton k, by simpa using hk⟩

theorem mapDelete_sublist (k : String) (l : List (String × Meeting)) :
    List.Sublist (mapDelete k l) l := by
  induction l with
  | nil => simp [mapDelete]
  | cons hd tl ih =>
    obtain ⟨k₁, v₁⟩ := hd
    by_cases h : k₁ = k
    · simp [mapDelete, h]
    · simpa [mapDelete, h] using ih.cons₂ (k₁, v₁)

theorem mapDelete_keys_nodup (k : String) (l : List (String × Meeting))
    (h : (registryKeys l).Nodup) : (registryKeys (mapDelete k l)).Nodup :=
  List.Nodup.sublist (List.Sublist.map Prod.fst (mapDelete_sublist k l)) h

theorem mapSet_idem (k : String) (v : Meeting) (l : List (String × Meeting)) :
    mapSet k v (mapSet k v l) = mapSet k v l := by
  induction l with
  | nil => simp [mapSet]
  | cons hd tl ih =>
    obtain ⟨k₁, v₁⟩ := hd
    by_cases h : k₁ = k
    · simp [mapSet, h]
    · simp [mapSet, h, ih]

theorem applyOp_keys_nodup (st : DashboardState) (op : RegOp)
    (h : (registryKeys st.activeMeetings).Nodup) :
    (registryKeys (applyOp st op).activeMeetings).Nodup := by
  cases op with
  | upsert m => exact mapSet_keys_nodup _ _ _ h
  | remove id => exact mapDelete_keys_nodup _ _ h

theorem applyOps_keys_nodup (ops : List RegOp) (st : DashboardState)
    (h : (registryKeys st.activeMeetings).Nodup) :
    (registryKeys (applyOps ops st).activeMeetings).Nodup := by
  induction ops generalizing st with
  | nil => exact h
  | cons op rest ih =>
    exact ih (applyOp st op) (applyOp_keys_nodup st op h)

/-! ### Concrete data for counterexamples -/

/-- A sample meeting with id m1. -/
def meetingOne : Meeting :=
  { meeting_id := "m1", title := "Standup", platform := "zoom",
    start_time := "2024-01-01T09:00:00Z" }

/-- A sample meeting with id m3. -/
def meetingThree : Meeting :=
  { meeting_id := "m3", title := "Retro", platform := "meet",
    start_time := "2024-01-01T10:00:00Z" }

/-- A dashboard state whose registry already holds the entry m3. -/
def staleState : DashboardState :=
  { initState with activeMeetings := [("m3", meetingThree)] }

/-- A connection state whose current session is open. -/
def openSessionState : ConnectionState :=
  { websocketConnection := some { id := 0, readyState := WebSocket.OPEN },
    nextSessionId := 1 }

/-- The five `case` labels of the `switch` in `handleWebSocketMessage`. -/
def knownMessageTypes : List String :=
  ["meeting_started", "meeting_ended", "transcript_update", "meetings_update", "pong"]

/-! ### Claim theorems -/

/-- Claim C1, counterexample: with the registry holding only m3, dispatching a
`meetings_update` event carrying the list `[m1]` leaves the registry still
equal to `[(m3, ...)]` — the stale entry m3 survives and m1 is never
installed, contradicting the claim that the registry is replaced by the
snapshot. -/
theorem meetings_update_does_not_replace_registry_cex :
    (handleWebSocketMessage
        { type := "meetings_update", data := some { meetings := some [meetingOne] } }
        staleState).state.activeMeetings = [("m3", meetingThree)] ∧
    ("m1", meetingOne) ∉ (handleWebSocketMessage
        { type := "meetings_update", data := some { meetings := some [meetingOne] } }
        staleState).state.activeMeetings :=
  ⟨rfl, by decide⟩

/-- Claim C1, amended: dispatching a `meetings_update` event leaves the
`activeMeetings` registry (and the live-updates feed) unchanged; the list
read from `data.data.meetings` replaces the rendered meeting-history rows
instead. -/
theorem meetings_update_leaves_registry_unchanged
    (ms : List Meeting) (m : Option Meeting) (mid : Option String)
    (tx : Option String) (st : DashboardState) :
    handleWebSocketMessage
        { type := "meetings_update", meeting := m, meeting_id := mid, text := tx,
          data := some { meetings := some ms } } st
      = HandlerResult.ok { st with meetingHistoryRows := ms } :=
  rfl

/-- Claim C2, counterexample: an unparsable payload makes the `onmessage`
callback throw the SyntaxError uncaught (there is no try/catch), and nothing
is appended to the console log or anywhere else — the decode error is not
caught, logged and dropped as the claim states. -/
theorem unparsable_payload_throws_cex :
    (onmessage (Except.error "SyntaxError: Unexpected token") initState).throws = true ∧
    (onmessage (Except.error "SyntaxError: Unexpected token") initState).state =
      initState :=
  ⟨rfl, rfl⟩

/-- Claim C2, amended: on an unparsable payload the callback rethrows the
SyntaxError of `JSON.parse` uncaught; the message is dropped with the state
unchanged, and — because each message runs as its own event-loop task —
delivery of every subsequent message proceeds exactly as if the bad message
had never arrived. -/
theorem unparsable_payload_throws_and_later_dispatch_continues
    (e : String) (st : DashboardState) (rest : List (Except String WsData)) :
    onmessage (Except.error e) st = HandlerResult.thrown e st ∧
    (onmessage (Except.error e) st).state = st ∧
    deliverAll (Except.error e :: rest) st = deliverAll rest st :=
  ⟨rfl, rfl, rfl⟩

/-- Claim C3, counterexample: with the current session open,
`connectWebSocket()` is not a no-op — it constructs a brand-new socket (a
fresh session id, in the CONNECTING state) and overwrites the handle, so a
new session is opened while the previous one is still open. -/
theorem connectWebSocket_not_noop_when_open_cex :
    openSessionState.websocketConnection =
      some { id := 0, readyState := WebSocket.OPEN } ∧
    connectWebSocket openSessionState ≠ openSessionState ∧
    (connectWebSocket openSessionState).websocketConnection =
      some { id := 1, readyState := WebSocket.CONNECTING } :=
  ⟨rfl, by decide, rfl⟩

/-- Claim C3, amended: `connectWebSocket()` performs no state check at all —
for every prior state, open or connecting sessions included, it opens a
fresh session in the CONNECTING state and overwrites the stored handle. -/
theorem connectWebSocket_unconditionally_opens_new_session (st : ConnectionState) :
    connectWebSocket st =
      { websocketConnection :=
          some { id := st.nextSessionId, readyState := WebSocket.CONNECTING },
        nextSessionId := st.nextSessionId + 1 } :=
  rfl

/-- Claim C4: starting from the empty registry, after any sequence of upsert
(`meeting_started` insert) and remove (`meeting_ended` delete) operations the
registry keys are pairwise distinct — at most one entry per meeting id. -/
theorem registry_keys_nodup_over_op_sequences (ops : List RegOp) :
    (registryKeys (applyOps ops initState).activeMeetings).Nodup :=
  applyOps_keys_nodup ops initState (by simp [initState, registryKeys])

/-- Claim C5: upsert is idempotent — for every meeting and every dashboard
state, applying `addActiveMeeting` twice in succession yields the very same
state as applying it once. -/
theorem addActiveMeeting_idempotent (m : Meeting) (st : DashboardState) :
    addActiveMeeting m (addActiveMeeting m st) = addActiveMeeting m st := by
  simp [addActiveMeeting, mapSet_idem]

/-- Claim C6: the heartbeat timer fires at the fixed 30000 ms period, and a
firing emits a probe only when a connection handle exists and its readyState
is OPEN (never on a connecting, closing or closed session); every probe it
emits is exactly the ping object carrying the current epoch-millis clock. -/
theorem heartbeat_only_when_open_fixed_interval :
    heartbeatIntervalMs = 30000 ∧
    ∀ (conn : Option WebSocketConn) (now : Nat) (msg : PingMessage),
      heartbeatTick conn now = some msg →
        (∃ c, conn = some c ∧ c.readyState = WebSocket.OPEN) ∧
        msg = { type := "ping", timestamp := now } := by
  refine ⟨rfl, ?_⟩
  intro conn now msg h
  cases conn with
  | none => simp [heartbeatTick] at h
  | some c =>
    by_cases hc : c.readyState = WebSocket.OPEN
    · have h₂ : ({ type := "ping", timestamp := now } : PingMessage) = msg := by
        simpa [heartbeatTick, hc] using h
      exact ⟨⟨c, rfl, hc⟩, h₂.symm⟩
    · simp [heartbeatTick, hc] at h

/-- Witness for the C6 theorem: a concrete open connection at clock 12345
emits the concrete ping probe. -/
theorem heartbeat_only_when_open_fixed_interval_witness :
    (∃ c, (some { id := 0, readyState := 1 } : Option WebSocketConn) = some c ∧
        c.readyState = WebSocket.OPEN) ∧
    ({ type := "ping", timestamp := 12345 } : PingMessage) =
      { type := "ping", timestamp := 12345 } :=
  heartbeat_only_when_open_fixed_interval.2 (some { id := 0, readyState := 1 }) 12345
    { type := "ping", timestamp := 12345 } rfl

/-- Claim C7: every invocation of the `onclose` handler schedules exactly one
reconnect timer, always with the fixed 3000 ms delay, and the schedule is the
same for every state — there is no attempt counter and hence no exponential
backoff. -/
theorem onclose_schedules_single_fixed_reconnect :
    reconnectDelayMs = 3000 ∧
    ∀ st : DashboardState,
      (onclose st).2 = [(TimerTask.reconnect, 3000)] ∧
      (onclose st).2.length = 1 ∧
      ∀ st₂ : DashboardState, (onclose st).2 = (onclose st₂).2 :=
  ⟨rfl, fun _ => ⟨rfl, rfl, fun _ => rfl⟩⟩

/-- Claim C8: an event whose type tag matches none of the five known kinds is
logged to the console and dropped: the handler returns normally (never
throws), the registry is untouched, and delivery of subsequent messages
continues as if only the log entry had been added. -/
theorem unknown_type_logged_and_dropped
    (d : WsData) (st : DashboardState) (rest : List (Except String WsData))
    (h : d.type ∉ knownMessageTypes) :
    handleWebSocketMessage d st =
      HandlerResult.ok { st with
        consoleLogs := st.consoleLogs ++
          ["Unknown WebSocket message type: " ++ d.type] } ∧
    (handleWebSocketMessage d st).state.activeMeetings = st.activeMeetings ∧
    (handleWebSocketMessage d st).throws = false ∧
    deliverAll (Except.ok d :: rest) st =
      deliverAll rest { st with
        consoleLogs := st.consoleLogs ++
          ["Unknown WebSocket message type: " ++ d.type] } := by
  have he : handleWebSocketMessage d st =
      HandlerResult.ok { st with
        consoleLogs := st.consoleLogs ++
          ["Unknown WebSocket message type: " ++ d.type] } := by
    simp only [knownMessageTypes, List.mem_cons, List.not_mem_nil, or_false,
      not_or] at h
    obtain ⟨h₁, h₂, h₃, h₄, h₅⟩ := h
    simp [handleWebSocketMessage, h₁, h₂, h₃, h₄, h₅]
  refine ⟨he, ?_, ?_, ?_⟩
  · rw [he]
    rfl
  · rw [he]
    rfl
  · simp [deliverAll, onmessage, he, HandlerResult.state]

/-- Witness for the C8 theorem: the concrete unknown tag "mystery" on the
initial state. -/
theorem unknown_type_logged_and_dropped_witness :
    handleWebSocketMessage { type := "mystery" } initState =
      HandlerResult.ok { initState with
        consoleLogs := initState.consoleLogs ++
          ["Unknown WebSocket message type: " ++ "mystery"] } ∧
    (handleWebSocketMessage { type := "mystery" } initState).state.activeMeetings =
      initState.activeMeetings ∧
    (handleWebSocketMessage { type := "mystery" } initState).throws = false ∧
    deliverAll (Except.ok { type := "mystery" } :: []) initState =
      deliverAll [] { initState with
        consoleLogs := initState.consoleLogs ++
          ["Unknown WebSocket message type: " ++ "mystery"] } :=
  unknown_type_logged_and_dropped { type := "mystery" } initState [] (by decide)

/-- Claim C9: a `meeting_ended` event whose `meeting` field is absent makes
the handler throw a TypeError while reading `data.meeting.title` for the
live-update text; the registry removal keyed by `data.meeting_id` has already
been performed at the moment of the throw, confirming that removal needs only
the id while safe completion of the handler requires the meeting object. -/
theorem meeting_ended_missing_meeting_throws_after_removal
    (mid : Option String) (tx : Option String) (pl : Option WsPayload)
    (st : DashboardState) :
    handleWebSocketMessage
        { type := "meeting_ended", meeting := none, meeting_id := mid, text := tx,
          data := pl } st
      = HandlerResult.thrown (tyErr "title") (removeActiveMeetingOpt mid st) :=
  rfl

/-- Claim C10: if the live-updates feed holds at most 10 entries before a
call to `addLiveUpdate`, it again holds at most 10 entries after the call
(one entry is prepended, and the oldest is removed when the count exceeds
10). -/
theorem addLiveUpdate_preserves_bound (message style : String)
    (feed : List LiveUpdate) (h : feed.length ≤ 10) :
    (addLiveUpdate message style feed).length ≤ 10 := by
  simp only [addLiveUpdate]
  split
  · simp only [List.length_dropLast, List.length_cons]
    omega
  · next hle =>
    simp only [List.length_cons, gt_iff_lt, not_lt] at hle
    exact hle

/-- Witness for the C10 theorem: the empty feed. -/
theorem addLiveUpdate_preserves_bound_witness :
    ([] : List LiveUpdate).length ≤ 10 ∧
    (addLiveUpdate "Connected to real-time updates" "success" []).length ≤ 10 :=
  ⟨by decide,
   addLiveUpdate_preserves_bound "Connected to real-time updates" "success" []
     (by decide)⟩
